import Mathlib

/-!
# Verification of the solarshowdown-api energy-metrics service

Shallow embedding of `main.go`. Modelling choices:

* Instants are modelled as `Int` seconds since the Unix epoch. Go's
  `Time.UTC()` only changes the displayed location of a `Time`, never the
  instant it denotes, so it is the identity in this embedding.
* A Go `Time` observed through `Year()/Month()/Day()/Clock()` in the local
  location is modelled by its civil coordinates (`Civil`), together with a
  fixed local-zone offset `loc` in seconds east of UTC.  `time.Date` and
  `Time.AddDate` are embedded following Go's documented normalization
  (out-of-range fields are carried, days through epoch-day arithmetic).
* `float64` measurement values are modelled as `ℚ`; the arithmetic in the
  claims (`+`, `-`, `/ 1000`) is exact at the fixture level.
* The InfluxDB client is modelled as a function from the varying query
  parameters (bucket, dongle identifier, measurement name, range start) to
  either a transport error or a query table result; the Go code
  interpolates exactly these parameters into the flux query string.
* The wall clock, which the Go code reads afresh via `time.Now()` inside
  `calculateRangeStart`, is passed explicitly as `loc`/`now` parameters; a
  single request is modelled with one fixed reading (the spec notes that
  wall-clock drift across the sequential queries is immaterial).
-/

/-- Civil (wall-clock) coordinates of a Go `Time` in the local location:
what `Year()`, `Month()`, `Day()`, `Hour()`, `Minute()`, `Second()` return. -/
structure Civil where
  year : Int
  month : Int
  day : Int
  hour : Int
  minute : Int
  second : Int
deriving DecidableEq

/-- Days since 1970-01-01 of the civil date `(y, m, d)` for a normalized
month `m ∈ [1,12]` (days may be out of range; they shift the result
linearly), as computed by Go's `time.Date` day arithmetic. -/
def daysFromCivil (y m d : Int) : Int :=
  let ys := if m ≤ 2 then y - 1 else y
  let era := ys / 400
  let yoe := ys - era * 400
  let mm := if m > 2 then m - 3 else m + 9
  let doy := (153 * mm + 2) / 5 + d - 1
  let doe := yoe * 365 + yoe / 4 - yoe / 100 + doy
  era * 146097 + doe - 719468

/-- Go's `time.Date(y, mo, d, hh, mi, ss, 0, loc).Unix()`: the month is
normalized into the year and seconds→minutes→hours→days are carried, then
the instant is computed and the zone offset `loc` (seconds east of UTC)
subtracted. -/
def goDate (loc y mo d hh mi ss : Int) : Int :=
  let mo0 := mo - 1
  let y1 := y + mo0 / 12
  let mo1 := mo0 % 12 + 1
  let mi1 := mi + ss / 60
  let ss1 := ss % 60
  let hh1 := hh + mi1 / 60
  let mi2 := mi1 % 60
  let d1 := d + hh1 / 24
  let hh2 := hh1 % 24
  (daysFromCivil y1 mo1 1 + (d1 - 1)) * 86400 + hh2 * 3600 + mi2 * 60 + ss1 - loc

/-- The instant denoted by a local civil datetime (Go `Time.Unix()`). -/
def toAbs (loc : Int) (t : Civil) : Int :=
  goDate loc t.year t.month t.day t.hour t.minute t.second

/-- Go's `Time.AddDate(years, months, days)`: re-dates the civil
coordinates in the time's location and renormalizes via `time.Date`; we
return the resulting instant (its `.UTC()` denotes the same instant). -/
def goAddDate (loc : Int) (t : Civil) (years months days : Int) : Int :=
  goDate loc (t.year + years) (t.month + months) (t.day + days) t.hour t.minute t.second

/-- Embedding of `calculateRangeStart` from `main.go`, with the wall clock
passed explicitly: `now` is the local civil reading of `time.Now()` and
`loc` the fixed local-zone offset.  `.UTC()` preserves the instant, so the
returned `Int` is the start instant of the query window. -/
def calculateRangeStart (loc : Int) (now : Civil) (timeframe : String) : Except String Int :=
  if timeframe = "day" then
    Except.ok (goDate loc now.year now.month now.day 0 1 0)
  else if timeframe = "week" then
    Except.ok (goAddDate loc now 0 0 (-7))
  else if timeframe = "month" then
    Except.ok (goAddDate loc now 0 (-1) 0)
  else
    Except.error ("invalid timeframe: " ++ timeframe)

/-- Number of days of month `m` of year `y` (Gregorian). Used only to
state which `Civil` values are in the image of real Go `Time`s. -/
def daysInMonth (y m : Int) : Int :=
  if m = 2 then
    if (y % 4 = 0 ∧ ¬ y % 100 = 0) ∨ y % 400 = 0 then 29 else 28
  else if m = 4 ∨ m = 6 ∨ m = 9 ∨ m = 11 then 30
  else 31

/-- A `Civil` value is valid when it is the civil reading of an actual
instant: every Go `time.Now()` decomposes to such coordinates. -/
def Civil.Valid (c : Civil) : Prop :=
  1 ≤ c.month ∧ c.month ≤ 12 ∧
  1 ≤ c.day ∧ c.day ≤ daysInMonth c.year c.month ∧
  0 ≤ c.hour ∧ c.hour < 24 ∧
  0 ≤ c.minute ∧ c.minute < 60 ∧
  0 ≤ c.second ∧ c.second < 60

instance (c : Civil) : Decidable c.Valid := by
  unfold Civil.Valid
  infer_instance

instance {ε α : Type} [DecidableEq ε] [DecidableEq α] : DecidableEq (Except ε α) := fun a b =>
  match a, b with
  | Except.ok x, Except.ok y =>
    if h : x = y then isTrue (by rw [h]) else isFalse (fun c => h (Except.ok.inj c))
  | Except.error e, Except.error f =>
    if h : e = f then isTrue (by rw [h]) else isFalse (fun c => h (Except.error.inj c))
  | Except.ok _, Except.error _ => isFalse (fun c => Except.noConfusion c)
  | Except.error _, Except.ok _ => isFalse (fun c => Except.noConfusion c)

/-- The `Config` struct of `main.go` (the fields the core queries use). -/
structure Config where
  influxDBURL : String
  influxDBToken : String
  influxDBOrg : String
  influxDBBucket : String
  serverPort : String
  dongle : String
deriving DecidableEq

/-- The dynamic value of a flux record's `_value` column as the Go code
observes it through `result.Record().Value() : interface{}`: the nil
interface, a `float64` (modelled as `ℚ`), or a value of some other dynamic
type whose name is what `%T` would print. -/
inductive FluxValue where
  | null : FluxValue
  | float : ℚ → FluxValue
  | other : String → FluxValue
deriving DecidableEq

/-- The part of `api.QueryTableResult` the code observes: the sequence of
rows (`Next()` succeeds while rows remain, `Record().Value()` reads the
current row) and the iteration error reported by `result.Err()`. -/
structure QueryTableResult where
  rows : List FluxValue
  err : Option String
deriving DecidableEq

/-- The InfluxDB client, as a function of the parameters the Go code
interpolates into the flux query string — bucket, dongle identifier,
measurement name, range start — returning either a transport/query error
(the `err` of `queryAPI.Query`) or a table result. -/
def Store : Type :=
  String → String → String → Int → Except String QueryTableResult

/-- Embedding of `processQueryResult` from `main.go`: no first row ⇒ `0`
with nil error; a nil value ⇒ `0` with nil error; a `float64` value ⇒ the
value paired with `result.Err()`; any other dynamic type ⇒ the
`unexpected value type: %T` error. -/
def processQueryResult (result : QueryTableResult) : Except String ℚ :=
  match result.rows with
  | [] => Except.ok 0
  | value :: _ =>
    match value with
    | FluxValue.null => Except.ok 0
    | FluxValue.float x =>
      match result.err with
      | some e => Except.error e
      | none => Except.ok x
    | FluxValue.other t => Except.error ("unexpected value type: " ++ t)

/-- Embedding of `queryMeasurement` from `main.go`: runs the flux query
scoped to the configured bucket and dongle; a failed store call becomes
the `query failed for <measurement>: <cause>` error, otherwise the table
result is handed to `processQueryResult` unchanged. -/
def queryMeasurement (store : Store) (config : Config) (measurement : String)
    (start : Int) : Except String ℚ :=
  match store config.influxDBBucket config.dongle measurement start with
  | Except.error e => Except.error ("query failed for " ++ measurement ++ ": " ++ e)
  | Except.ok result => processQueryResult result

/-- The accumulator loop of `queryGenerated`: `total += value` over the
measurement list, returning the first error encountered. -/
def sumMeasurements (store : Store) (config : Config) (start : Int) :
    List String → ℚ → Except String ℚ
  | [], total => Except.ok total
  | m :: ms, total =>
    match queryMeasurement store config m start with
    | Except.error e => Except.error e
    | Except.ok value => sumMeasurements store config start ms (total + value)

/-- Embedding of `queryGenerated` from `main.go`: sum of the three
PV-string daily maxima, fail-fast on the first error. -/
def queryGenerated (store : Store) (config : Config) (loc : Int) (now : Civil)
    (timeframe : String) : Except String ℚ :=
  match calculateRangeStart loc now timeframe with
  | Except.error e => Except.error e
  | Except.ok start =>
    sumMeasurements store config start ["lux_Epv1_day", "lux_Epv2_day", "lux_Epv3_day"] 0

/-- Embedding of `queryConsumed` from `main.go`: recomputes `generated`
via `queryGenerated` and queries the four grid/battery counters afresh,
then applies the energy-balance formula. -/
def queryConsumed (store : Store) (config : Config) (loc : Int) (now : Civil)
    (timeframe : String) : Except String ℚ :=
  match calculateRangeStart loc now timeframe with
  | Except.error e => Except.error e
  | Except.ok start =>
    match queryGenerated store config loc now timeframe with
    | Except.error e => Except.error e
    | Except.ok generated =>
      match queryMeasurement store config "lux_Etouser_day" start with
      | Except.error e => Except.error e
      | Except.ok touser =>
        match queryMeasurement store config "lux_Edischg_day" start with
        | Except.error e => Except.error e
        | Except.ok dischg =>
          match queryMeasurement store config "lux_Etogrid_day" start with
          | Except.error e => Except.error e
          | Except.ok togrid =>
            match queryMeasurement store config "lux_Echg_day" start with
            | Except.error e => Except.error e
            | Except.ok chg => Except.ok (generated + touser + dischg - (togrid + chg))

/-- Embedding of `queryExported` from `main.go`. -/
def queryExported (store : Store) (config : Config) (loc : Int) (now : Civil)
    (timeframe : String) : Except String ℚ :=
  match calculateRangeStart loc now timeframe with
  | Except.error e => Except.error e
  | Except.ok start => queryMeasurement store config "lux_Etogrid_day" start

/-- Embedding of `queryDischarged` from `main.go`. -/
def queryDischarged (store : Store) (config : Config) (loc : Int) (now : Civil)
    (timeframe : String) : Except String ℚ :=
  match calculateRangeStart loc now timeframe with
  | Except.error e => Except.error e
  | Except.ok start => queryMeasurement store config "lux_Edischg_day" start

/-- Embedding of `queryImported` from `main.go`. -/
def queryImported (store : Store) (config : Config) (loc : Int) (now : Civil)
    (timeframe : String) : Except String ℚ :=
  match calculateRangeStart loc now timeframe with
  | Except.error e => Except.error e
  | Except.ok start => queryMeasurement store config "lux_Etouser_day" start

/-- Embedding of `queryMaxPv` from `main.go`: instantaneous total power,
watts → kW. -/
def queryMaxPv (store : Store) (config : Config) (loc : Int) (now : Civil)
    (timeframe : String) : Except String ℚ :=
  match calculateRangeStart loc now timeframe with
  | Except.error e => Except.error e
  | Except.ok start =>
    match queryMeasurement store config "lux_Pall" start with
    | Except.error e => Except.error e
    | Except.ok watts => Except.ok (watts / 1000)

/-- The `Response` struct of `main.go`; `error = ""` models the omitted
`omitempty` JSON field. -/
structure Response where
  generated : ℚ
  consumed : ℚ
  exported : ℚ
  imported : ℚ
  discharged : ℚ
  maxPv : ℚ
  error : String
deriving DecidableEq

/-- The error response the handler writes: `Response{Error: e}` leaves the
numeric fields at their zero values, paired with status 500. -/
def errorResponse (e : String) : Nat × Response :=
  (500, ⟨0, 0, 0, 0, 0, 0, e⟩)

/-- The GET branch of `handleSolarShowdown` from `main.go`, from the
`timeframe` query-parameter extraction onward (method filtering and URL
parsing belong to the excluded HTTP boundary).  Returns the HTTP status
code and the JSON-encoded `Response`; every failure path writes
`http.StatusInternalServerError`, the success path writes 200. -/
def handleSolarShowdown (store : Store) (config : Config) (loc : Int) (now : Civil)
    (timeframeParam : String) : Nat × Response :=
  let timeframe := if timeframeParam = "" then "day" else timeframeParam
  match queryGenerated store config loc now timeframe with
  | Except.error e => errorResponse e
  | Except.ok generated =>
    match queryConsumed store config loc now timeframe with
    | Except.error e => errorResponse e
    | Except.ok consumed =>
      match queryExported store config loc now timeframe with
      | Except.error e => errorResponse e
      | Except.ok exported =>
        match queryImported store config loc now timeframe with
        | Except.error e => errorResponse e
        | Except.ok imported =>
          match queryDischarged store config loc now timeframe with
          | Except.error e => errorResponse e
          | Except.ok discharged =>
            match queryMaxPv store config loc now timeframe with
            | Except.error e => errorResponse e
            | Except.ok maxPv =>
              (200, ⟨generated, consumed, exported, imported, discharged, maxPv, ""⟩)

/-- A concrete configuration used by the witness fixtures. -/
def fixtureConfig : Config :=
  ⟨"http://influx:8086", "token", "org", "bucket", "8080", "dongle1"⟩

/-- The spec's literal fixture values per measurement: generated split as
5 + 3 + 2 = 10 over the PV strings, imported 2, discharged 1, exported 3,
battery charge 1/2, instantaneous power 2500 W. -/
def fixtureValue (measurement : String) : ℚ :=
  if measurement = "lux_Epv1_day" then 5
  else if measurement = "lux_Epv2_day" then 3
  else if measurement = "lux_Epv3_day" then 2
  else if measurement = "lux_Etouser_day" then 2
  else if measurement = "lux_Edischg_day" then 1
  else if measurement = "lux_Etogrid_day" then 3
  else if measurement = "lux_Echg_day" then 1/2
  else if measurement = "lux_Pall" then 2500
  else 0

/-- A store that answers every query with one float row holding the
fixture value for the measurement. -/
def fixtureStore : Store := fun _bucket _dongle measurement _start =>
  Except.ok ⟨[FluxValue.float (fixtureValue measurement)], none⟩

/-- A fixed valid wall-clock reading: 2024-03-15 12:00:00 local. -/
def fixtureNow : Civil := ⟨2024, 3, 15, 12, 0, 0⟩

/-- A store whose queries always succeed with zero rows. -/
def emptyStore : Store := fun _bucket _dongle _measurement _start =>
  Except.ok ⟨[], none⟩

/-- A store whose queries return one row holding a non-numeric (string)
value, as InfluxDB would after a schema drift. -/
def badStore : Store := fun _bucket _dongle _measurement _start =>
  Except.ok ⟨[FluxValue.other "string"], none⟩

/-- Returns `true` iff the second list starts the first. -/
def startsWithCh : List Char → List Char → Bool
  | _, [] => true
  | [], _ :: _ => false
  | a :: as, b :: bs => (a == b) && startsWithCh as bs

/-- Returns `true` iff `needle` occurs contiguously inside `hay`; used to
state whether an error message carries a given name. -/
def occursIn (hay needle : List Char) : Bool :=
  match hay with
  | [] => needle.isEmpty
  | _ :: t => startsWithCh hay needle || occursIn t needle

/-- The spec's `"day"` window start: the instant of local midnight of the
current calendar day, shifted forward by a one-minute grace offset
(conversion to UTC does not move the instant). -/
def specDayStart (loc : Int) (now : Civil) : Int :=
  goDate loc now.year now.month now.day 0 0 0 + 60

/-- The spec's `"week"` window start: now minus 7 calendar days, in UTC. -/
def specWeekStart (loc : Int) (now : Civil) : Int :=
  goAddDate loc now 0 0 (-7)

/-- The spec's `"month"` window start: now minus 1 calendar month, in
UTC. -/
def specMonthStart (loc : Int) (now : Civil) : Int :=
  goAddDate loc now 0 (-1) 0

/-- Shifting the `day` argument of `time.Date` by `k` days shifts the
resulting instant by exactly `k * 86400` seconds (the day count enters the
epoch-day arithmetic linearly). -/
theorem goDate_day_shift (loc y mo d hh mi ss k : Int) :
    goDate loc y mo (d + k) hh mi ss = goDate loc y mo d hh mi ss + k * 86400 := by
  simp only [goDate]
  omega

/-- For an in-range month, `time.Date`'s normalization is the identity and
the instant is the canonical epoch-day formula. The clock fields need no
bounds: Go's carry normalization redistributes them exactly. -/
theorem goDate_normalized (loc y mo d hh mi ss : Int)
    (hmo1 : 1 ≤ mo) (hmo2 : mo ≤ 12) :
    goDate loc y mo d hh mi ss =
      (daysFromCivil y mo 1 + (d - 1)) * 86400 + hh * 3600 + mi * 60 + ss - loc := by
  simp only [goDate]
  have e1 : (mo - 1) / 12 = 0 := by omega
  have e2 : (mo - 1) % 12 = mo - 1 := by omega
  rw [e1, e2, add_zero, sub_add_cancel]
  omega

/-- Month `0` normalizes to December of the previous year. -/
theorem goDate_month_zero (loc y d hh mi ss : Int) :
    goDate loc y 0 d hh mi ss =
      (daysFromCivil (y - 1) 12 1 + (d - 1)) * 86400 + hh * 3600 + mi * 60 + ss - loc := by
  simp only [goDate]
  have e1 : ((0 : Int) - 1) / 12 = -1 := by decide
  have e2 : ((0 : Int) - 1) % 12 = 11 := by decide
  rw [e1, e2]
  have e3 : y + (-1 : Int) = y - 1 := by ring
  have e4 : (11 : Int) + 1 = 12 := by norm_num
  rw [e3, e4]
  omega

/-- The first day of month `mo - 1` precedes the first day of month `mo`
of the same year, for `mo ∈ [2,12]`. -/
theorem daysFromCivil_month_step (y mo : Int) (h2 : 2 ≤ mo) (h12 : mo ≤ 12) :
    daysFromCivil y (mo - 1) 1 < daysFromCivil y mo 1 := by
  interval_cases mo <;> (simp only [daysFromCivil]; norm_num; try omega)

/-- December 1 of the previous year precedes January 1. -/
theorem daysFromCivil_year_wrap (y : Int) :
    daysFromCivil (y - 1) 12 1 < daysFromCivil y 1 1 := by
  simp only [daysFromCivil]
  norm_num

/-- C1: whenever the resolver accepts the timeframe and the component
operations all succeed, `queryConsumed` returns exactly
`generated + imported + discharged - (exported + charged)`, where
`charged` is the queryMax of the battery-charge measurement; each subterm
is recomputed inside `queryConsumed`, and the proof shows those recomputed
queries agree with the standalone operations because the store is asked
the same questions. -/
theorem queryConsumed_energy_balance (store : Store) (config : Config) (loc : Int)
    (now : Civil) (tf : String) (start : Int) (g i dch ex ch : ℚ)
    (hs : calculateRangeStart loc now tf = Except.ok start)
    (hg : queryGenerated store config loc now tf = Except.ok g)
    (hi : queryImported store config loc now tf = Except.ok i)
    (hd : queryDischarged store config loc now tf = Except.ok dch)
    (he : queryExported store config loc now tf = Except.ok ex)
    (hc : queryMeasurement store config "lux_Echg_day" start = Except.ok ch) :
    queryConsumed store config loc now tf = Except.ok (g + i + dch - (ex + ch)) := by
  have hi' : queryMeasurement store config "lux_Etouser_day" start = Except.ok i := by
    simpa [queryImported, hs] using hi
  have hd' : queryMeasurement store config "lux_Edischg_day" start = Except.ok dch := by
    simpa [queryDischarged, hs] using hd
  have he' : queryMeasurement store config "lux_Etogrid_day" start = Except.ok ex := by
    simpa [queryExported, hs] using he
  simp [queryConsumed, hs, hg, hi', hd', he', hc]

/-- Witness for C1 at the spec's fixture: generated = 10 (5 + 3 + 2),
imported = 2, discharged = 1, exported = 3, charged = 1/2, so
consumed = 19/2 = 9.5 exactly. -/
theorem queryConsumed_energy_balance_witness :
    queryConsumed fixtureStore fixtureConfig 0 fixtureNow "day" = Except.ok (19/2) := by
  have hg : queryGenerated fixtureStore fixtureConfig 0 fixtureNow "day" = Except.ok 10 := by
    simp only [queryGenerated, calculateRangeStart, sumMeasurements, queryMeasurement,
      processQueryResult, fixtureStore, fixtureConfig, fixtureNow, fixtureValue]
    simp only [String.reduceEq, reduceIte]
    norm_num
  have h := queryConsumed_energy_balance fixtureStore fixtureConfig 0 fixtureNow "day"
    1710460860 10 2 1 3 (1/2) (by decide) hg rfl rfl rfl rfl
  rw [h]
  norm_num

/-- C2: the handler's outcome is total: either all six queries succeeded,
the status is 200, the error string is empty and every numeric field is
exactly the corresponding query's result — or the status is 500, every
numeric field is zero, and the error string is the error of one of the
six queries.  No field is ever selectively populated alongside an error,
and if any one query fails the 200/all-fields case is impossible. -/
theorem handleSolarShowdown_no_partial (store : Store) (config : Config) (loc : Int)
    (now : Civil) (tfp : String) :
    ((handleSolarShowdown store config loc now tfp).1 = 200 ∧
      (handleSolarShowdown store config loc now tfp).2.error = "" ∧
      queryGenerated store config loc now (if tfp = "" then "day" else tfp) =
        Except.ok (handleSolarShowdown store config loc now tfp).2.generated ∧
      queryConsumed store config loc now (if tfp = "" then "day" else tfp) =
        Except.ok (handleSolarShowdown store config loc now tfp).2.consumed ∧
      queryExported store config loc now (if tfp = "" then "day" else tfp) =
        Except.ok (handleSolarShowdown store config loc now tfp).2.exported ∧
      queryImported store config loc now (if tfp = "" then "day" else tfp) =
        Except.ok (handleSolarShowdown store config loc now tfp).2.imported ∧
      queryDischarged store config loc now (if tfp = "" then "day" else tfp) =
        Except.ok (handleSolarShowdown store config loc now tfp).2.discharged ∧
      queryMaxPv store config loc now (if tfp = "" then "day" else tfp) =
        Except.ok (handleSolarShowdown store config loc now tfp).2.maxPv) ∨
    ((handleSolarShowdown store config loc now tfp).1 = 500 ∧
      (handleSolarShowdown store config loc now tfp).2.generated = 0 ∧
      (handleSolarShowdown store config loc now tfp).2.consumed = 0 ∧
      (handleSolarShowdown store config loc now tfp).2.exported = 0 ∧
      (handleSolarShowdown store config loc now tfp).2.imported = 0 ∧
      (handleSolarShowdown store config loc now tfp).2.discharged = 0 ∧
      (handleSolarShowdown store config loc now tfp).2.maxPv = 0 ∧
      (queryGenerated store config loc now (if tfp = "" then "day" else tfp) =
          Except.error (handleSolarShowdown store config loc now tfp).2.error ∨
        queryConsumed store config loc now (if tfp = "" then "day" else tfp) =
          Except.error (handleSolarShowdown store config loc now tfp).2.error ∨
        queryExported store config loc now (if tfp = "" then "day" else tfp) =
          Except.error (handleSolarShowdown store config loc now tfp).2.error ∨
        queryImported store config loc now (if tfp = "" then "day" else tfp) =
          Except.error (handleSolarShowdown store config loc now tfp).2.error ∨
        queryDischarged store config loc now (if tfp = "" then "day" else tfp) =
          Except.error (handleSolarShowdown store config loc now tfp).2.error ∨
        queryMaxPv store config loc now (if tfp = "" then "day" else tfp) =
          Except.error (handleSolarShowdown store config loc now tfp).2.error)) := by
  simp only [handleSolarShowdown]
  generalize (if tfp = "" then "day" else tfp) = tf
  cases hG : queryGenerated store config loc now tf with
  | error e => right; simp [hG, errorResponse]
  | ok g =>
    cases hC : queryConsumed store config loc now tf with
    | error e => right; simp [hG, hC, errorResponse]
    | ok c =>
      cases hE : queryExported store config loc now tf with
      | error e => right; simp [hG, hC, hE, errorResponse]
      | ok ex =>
        cases hI : queryImported store config loc now tf with
        | error e => right; simp [hG, hC, hE, hI, errorResponse]
        | ok im =>
          cases hD : queryDischarged store config loc now tf with
          | error e => right; simp [hG, hC, hE, hI, hD, errorResponse]
          | ok dc =>
            cases hM : queryMaxPv store config loc now tf with
            | error e => right; simp [hG, hC, hE, hI, hD, hM, errorResponse]
            | ok mp => left; simp [hG, hC, hE, hI, hD, hM]

/-- C3: for every `now`, the resolver maps `day` to local midnight of the
current day plus the one-minute grace offset (as a UTC instant), `week` to
now minus 7 calendar days, and `month` to now minus 1 calendar month. -/
theorem calculateRangeStart_timeframe_semantics (loc : Int) (now : Civil) :
    calculateRangeStart loc now "day" = Except.ok (specDayStart loc now) ∧
    calculateRangeStart loc now "week" = Except.ok (specWeekStart loc now) ∧
    calculateRangeStart loc now "month" = Except.ok (specMonthStart loc now) := by
  refine ⟨?_, rfl, rfl⟩
  show Except.ok (goDate loc now.year now.month now.day 0 1 0) =
    Except.ok (specDayStart loc now)
  have h : goDate loc now.year now.month now.day 0 1 0 = specDayStart loc now := by
    simp only [goDate, specDayStart]
    omega
  rw [h]

/-- C4: if the store query returns no rows (whatever `Err()` reports),
`queryMeasurement` returns exactly `0` and no error: absence of data is
"no energy recorded", not a failure. -/
theorem queryMeasurement_no_rows_zero (store : Store) (config : Config)
    (measurement : String) (start : Int) (e : Option String)
    (h : store config.influxDBBucket config.dongle measurement start = Except.ok ⟨[], e⟩) :
    queryMeasurement store config measurement start = Except.ok 0 := by
  simp [queryMeasurement, h, processQueryResult]

/-- Witness for C4: a concrete store with an empty result set yields `0`. -/
theorem queryMeasurement_no_rows_zero_witness :
    queryMeasurement emptyStore fixtureConfig "lux_Epv1_day" 0 = Except.ok 0 :=
  queryMeasurement_no_rows_zero emptyStore fixtureConfig "lux_Epv1_day" 0 none rfl

/-- Counterexample for C5: for a row holding a string value, the failure
message is exactly `unexpected value type: string` — it carries the
dynamic type of the value but the measurement name (`lux_Epv1_day` here)
does not occur anywhere in it, contrary to the claim. -/
theorem queryMeasurement_unexpected_type_cex :
    queryMeasurement badStore fixtureConfig "lux_Epv1_day" 0 =
      Except.error "unexpected value type: string" ∧
    occursIn "unexpected value type: string".toList "lux_Epv1_day".toList = false := by
  exact ⟨rfl, rfl⟩

/-- C5 (amended): a non-numeric first-row value makes `queryMeasurement`
fail with the `unexpected value type` error carrying the value's dynamic
type; the measurement name is not part of this error (it is only added to
`query failed` transport errors). -/
theorem queryMeasurement_unexpected_type (store : Store) (config : Config)
    (measurement : String) (start : Int) (t : String) (rest : List FluxValue)
    (e : Option String)
    (h : store config.influxDBBucket config.dongle measurement start =
      Except.ok ⟨FluxValue.other t :: rest, e⟩) :
    queryMeasurement store config measurement start =
      Except.error ("unexpected value type: " ++ t) := by
  simp [queryMeasurement, h, processQueryResult]

/-- Witness for C5 (amended) at a concrete store and measurement. -/
theorem queryMeasurement_unexpected_type_witness :
    queryMeasurement badStore fixtureConfig "lux_Pall" 0 =
      Except.error ("unexpected value type: " ++ "string") :=
  queryMeasurement_unexpected_type badStore fixtureConfig "lux_Pall" 0 "string" [] none rfl

/-- C6: every timeframe token outside `{day, week, month}` — the empty
string included — makes the resolver fail with the invalid-timeframe
error; the resolver itself never defaults the empty string (the handler
does that before calling it). -/
theorem calculateRangeStart_invalid_timeframe (loc : Int) (now : Civil) (tf : String)
    (hd : tf ≠ "day") (hw : tf ≠ "week") (hm : tf ≠ "month") :
    calculateRangeStart loc now tf = Except.error ("invalid timeframe: " ++ tf) := by
  simp [calculateRangeStart, hd, hw, hm]

/-- Witness for C6 at the empty string and at `bogus`. -/
theorem calculateRangeStart_invalid_timeframe_witness :
    calculateRangeStart 0 fixtureNow "" = Except.error "invalid timeframe: " ∧
    calculateRangeStart 0 fixtureNow "bogus" = Except.error "invalid timeframe: bogus" := by
  constructor
  · exact calculateRangeStart_invalid_timeframe 0 fixtureNow ""
      (by decide) (by decide) (by decide)
  · exact calculateRangeStart_invalid_timeframe 0 fixtureNow "bogus"
      (by decide) (by decide) (by decide)

/-- C7 (amended): for every valid `now`, `week` resolves to exactly now
minus 7 days (hence strictly before now) and `month` resolves strictly
before now; `day` resolves to local midnight plus one minute, which is
strictly before now exactly when the local time of day is past 00:01:00 —
in the first minute after local midnight it is at or after now.  The
resolver is a pure function of `(timeframe, now)`, so for a fixed `now`
the result is deterministic. -/
theorem calculateRangeStart_start_bounds (loc : Int) (now : Civil) (h : now.Valid) :
    calculateRangeStart loc now "week" = Except.ok (toAbs loc now - 604800) ∧
    (∃ s, calculateRangeStart loc now "month" = Except.ok s ∧ s < toAbs loc now) ∧
    (∃ s, calculateRangeStart loc now "day" = Except.ok s ∧
      (s < toAbs loc now ↔ 60 < now.hour * 3600 + now.minute * 60 + now.second)) ∧
    (∀ tf s₁ s₂, calculateRangeStart loc now tf = Except.ok s₁ →
      calculateRangeStart loc now tf = Except.ok s₂ → s₁ = s₂) := by
  obtain ⟨h1, h2, _h3, _h4, _h5, _h6, _h7, _h8, _h9, _h10⟩ := h
  refine ⟨?_, ?_, ?_, ?_⟩
  · have hrfl : calculateRangeStart loc now "week" = Except.ok (goAddDate loc now 0 0 (-7)) := rfl
    rw [hrfl]
    unfold goAddDate toAbs
    rw [show now.year + 0 = now.year from by ring,
        show now.month + 0 = now.month from by ring,
        goDate_day_shift loc now.year now.month now.day now.hour now.minute now.second (-7)]
    norm_num [sub_eq_add_neg]
  · refine ⟨goAddDate loc now 0 (-1) 0, rfl, ?_⟩
    unfold goAddDate toAbs
    rw [show now.year + 0 = now.year from by ring,
        show now.day + 0 = now.day from by ring]
    rcases eq_or_lt_of_le h1 with hmo | hmo
    · rw [show now.month + (-1) = 0 from by omega]
      rw [goDate_month_zero, goDate_normalized loc now.year now.month _ _ _ _ h1 h2]
      have hlt := daysFromCivil_year_wrap now.year
      rw [← hmo]
      omega
    · rw [show now.month + (-1) = now.month - 1 from by ring]
      rw [goDate_normalized loc now.year (now.month - 1) _ _ _ _ (by omega) (by omega),
          goDate_normalized loc now.year now.month _ _ _ _ h1 h2]
      have hlt := daysFromCivil_month_step now.year now.month (by omega) h2
      omega
  · refine ⟨goDate loc now.year now.month now.day 0 1 0, rfl, ?_⟩
    unfold toAbs
    rw [goDate_normalized loc now.year now.month now.day 0 1 0 h1 h2,
        goDate_normalized loc now.year now.month now.day now.hour now.minute now.second h1 h2]
    omega
  · intro tf s₁ s₂ e₁ e₂
    rw [e₁] at e₂
    exact Except.ok.inj e₂

/-- Witness for C7 (amended) at offset 0 and 2024-03-15 12:00:00. -/
theorem calculateRangeStart_start_bounds_witness :
    calculateRangeStart 0 fixtureNow "week" = Except.ok (toAbs 0 fixtureNow - 604800) ∧
    (∃ s, calculateRangeStart 0 fixtureNow "month" = Except.ok s ∧ s < toAbs 0 fixtureNow) ∧
    (∃ s, calculateRangeStart 0 fixtureNow "day" = Except.ok s ∧
      (s < toAbs 0 fixtureNow ↔
        60 < fixtureNow.hour * 3600 + fixtureNow.minute * 60 + fixtureNow.second)) ∧
    (∀ tf s₁ s₂, calculateRangeStart 0 fixtureNow tf = Except.ok s₁ →
      calculateRangeStart 0 fixtureNow tf = Except.ok s₂ → s₁ = s₂) :=
  calculateRangeStart_start_bounds 0 fixtureNow (by decide)

/-- Counterexample for C7 as stated: at the valid local reading
1970-01-01 00:00:30 (offset 0), the `day` start is 00:01:00 = instant 60,
while now is instant 30 — the resolver returns a start strictly AFTER
now, so "start strictly before now for every supported token" is false. -/
theorem calculateRangeStart_day_after_now_cex :
    Civil.Valid ⟨1970, 1, 1, 0, 0, 30⟩ ∧
    calculateRangeStart 0 ⟨1970, 1, 1, 0, 0, 30⟩ "day" = Except.ok 60 ∧
    toAbs 0 ⟨1970, 1, 1, 0, 0, 30⟩ = 30 ∧ ¬ (60 : Int) < 30 := by
  refine ⟨by decide, by decide, by decide, by decide⟩

/-- C8: `queryMaxPv` returns exactly the raw queried watts value divided
by 1000 (watts → kilowatts). -/
theorem queryMaxPv_watts_to_kilowatts (store : Store) (config : Config) (loc : Int)
    (now : Civil) (tf : String) (start : Int) (w : ℚ)
    (hs : calculateRangeStart loc now tf = Except.ok start)
    (hw : queryMeasurement store config "lux_Pall" start = Except.ok w) :
    queryMaxPv store config loc now tf = Except.ok (w / 1000) := by
  simp [queryMaxPv, hs, hw]

/-- Witness for C8: raw = 2500 W gives maxPv = 5/2 kW, exactly. -/
theorem queryMaxPv_watts_to_kilowatts_witness :
    queryMaxPv fixtureStore fixtureConfig 0 fixtureNow "day" = Except.ok (5/2) := by
  have h := queryMaxPv_watts_to_kilowatts fixtureStore fixtureConfig 0 fixtureNow "day"
    1710460860 2500 (by decide) rfl
  rw [h]
  norm_num

/-- C9 (code bug): for the invalid token `bogus` the handler responds
with HTTP 500 — the same status as server-side query failures — and the
error value is the bare formatted string, with no machine-readable kind
tag; the repository's own README documents `400 Bad Request: Invalid
timeframe parameter` instead. -/
theorem handleSolarShowdown_invalid_timeframe_500 :
    handleSolarShowdown fixtureStore fixtureConfig 0 fixtureNow "bogus" =
      (500, ⟨0, 0, 0, 0, 0, 0, "invalid timeframe: bogus"⟩) := rfl

/-- C10: a first row whose value is the nil interface is treated like "no
data": `processQueryResult` returns `0` with no error, it does not raise
the unexpected-value-type failure. -/
theorem processQueryResult_nil_value_zero (rest : List FluxValue) (e : Option String) :
    processQueryResult ⟨FluxValue.null :: rest, e⟩ = Except.ok 0 := rfl
